import Mathlib

/-
Verification of the Nightcrawler locale gate and its companions.

The development shallowly embeds three pieces of the repository:
  * `LocaleLayout` — the locale/auth-gated root layout (src/unnamed/part_000,
    lines 92–143).  The two external effects (the `getMessages` bundle
    loader and the `console.error` log sink) are made explicit: the loader
    is an oracle argument `String → Except JsError β`, and the result
    records the list of log entries emitted and the list of loader
    invocations, so that absence/number of invocations is provable.
  * the test harness fallback `getMessagesForLocale` (lines 161–167) and
    the message selection of `AllTheProviders` (lines 319–325);
  * the visible-row logic of `LatestNewsTable` (lines 535–595).
-/

namespace Nightcrawler

/-- A cookie as returned by the Next.js cookie store:
`get(name)` yields `{ value: string }` or `undefined`. -/
structure Cookie where
  value : String
deriving Repr, DecidableEq

/-- The locale registry consumed from `@/i18n/config`: the supported
locales and the designated default locale. -/
structure Routing where
  locales : List String
  defaultLocale : String
deriving Repr, DecidableEq

/-- A JavaScript `Error` as observed by the catch block of `LocaleLayout`:
its name, message and stack. -/
structure JsError where
  name : String
  message : String
  stack : String
deriving Repr, DecidableEq

/-- One `console.error` invocation, in the two shapes `LocaleLayout` uses:
line 134 passes the raw error object, lines 135–139 pass a record with the
name, the message and the stack of the error. -/
inductive LogEntry where
  | errorObject (msg : String) (err : JsError)
  | errorDetails (msg : String) (name : String) (message : String) (stack : String)
deriving Repr, DecidableEq

/-- The render outcome of the layout: trigger the not-found page
(`notFound()`, lines 105 and 141), return the children untouched
(line 110), or compose the document shell (lines 116–132), which carries
the locale as the `lang` attribute of `html`, the loaded message bundle
handed to `NextIntlClientProvider`, and the children. -/
inductive RenderOutcome (α β : Type) where
  | notFound
  | passThrough (children : α)
  | shell (lang : String) (messages : β) (children : α)
deriving Repr, DecidableEq

/-- `authCookie?.value === 'true'` (line 99): true exactly when the cookie
is present with value `"true"`. -/
def authState (authCookie : Option Cookie) : Bool :=
  match authCookie with
  | some c => c.value == "true"
  | none => false

/-- The observable result of one `LocaleLayout` invocation: the render
outcome, the `console.error` entries emitted, and the arguments of the
`getMessages` invocations performed. -/
structure LayoutResult (α β : Type) where
  outcome : RenderOutcome α β
  log : List LogEntry
  loaderCalls : List String
deriving Repr, DecidableEq

/-- `LocaleLayout` (lines 92–143).  The branch order follows the source:
locale validation (line 104), then the authentication short-circuit
(line 108), then the guarded bundle load (lines 113–142). -/
def LocaleLayout {α β : Type} (routing : Routing)
    (getMessages : String → Except JsError β)
    (children : α) (locale : String) (authCookie : Option Cookie) :
    LayoutResult α β :=
  let isAuthenticated := authState authCookie
  if !(routing.locales.contains locale) then
    { outcome := .notFound, log := [], loaderCalls := [] }
  else if isAuthenticated then
    { outcome := .passThrough children, log := [], loaderCalls := [] }
  else
    match getMessages locale with
    | .ok messages =>
        { outcome := .shell locale messages children
          log := []
          loaderCalls := [locale] }
    | .error e =>
        { outcome := .notFound
          log := [.errorObject "❌ [layout.tsx] Error in LocaleLayout:" e,
                  .errorDetails "❌ [layout.tsx] Error details:" e.name e.message e.stack]
          loaderCalls := [locale] }

/-- Modelled from the spec: the concrete locale registry `routing` lives in
`@/i18n/config`, which is not among the sources; per the spec scenarios and
the hard-coded message map of the test harness, the supported set is
`en` and `es`, with `en` the default. -/
def toddRouting : Routing :=
  { locales := ["en", "es"], defaultLocale := "en" }

/-- Discriminator for the `notFound` outcome. -/
def RenderOutcome.isNotFound {α β : Type} : RenderOutcome α β → Bool
  | .notFound => true
  | _ => false

/-- Discriminator for the `passThrough` outcome. -/
def RenderOutcome.isPassThrough {α β : Type} : RenderOutcome α β → Bool
  | .passThrough _ => true
  | _ => false

/-- Discriminator for the `shell` outcome. -/
def RenderOutcome.isShell {α β : Type} : RenderOutcome α β → Bool
  | .shell _ _ _ => true
  | _ => false

/-- One request to the layout: the route locale segment, the named
authentication cookie (when present) and the children. -/
structure Request (α : Type) where
  children : α
  locale : String
  authCookie : Option Cookie

/-- A batch of independent requests, each evaluated by `LocaleLayout`
with no state carried from one request to the next: this is the
per-request, stateless execution model of the layout. -/
def processRequests {α β : Type} (routing : Routing)
    (getMessages : String → Except JsError β) (reqs : List (Request α)) :
    List (LayoutResult α β) :=
  reqs.map (fun r => LocaleLayout routing getMessages r.children r.locale r.authCookie)

/-- `getMessagesForLocale` of the test harness (lines 161–167):
`messageMap[locale] || enMessages`, where the map holds exactly the keys
`en` and `es`; a missing key falls back to the English bundle. -/
def getMessagesForLocale {β : Type} (enMessages esMessages : β) (locale : String) : β :=
  let messageMap : List (String × β) := [("en", enMessages), ("es", esMessages)]
  match messageMap.lookup locale with
  | some m => m
  | none => enMessages

/-- The message bundle `AllTheProviders` hands to `NextIntlClientProvider`
on its next-intl path (lines 319–325): the same two-key map with the same
`|| enMessages` fallback. -/
def allTheProvidersMessages {β : Type} (enMessages esMessages : β) (locale : String) : β :=
  let messageMap : List (String × β) := [("en", enMessages), ("es", esMessages)]
  match messageMap.lookup locale with
  | some m => m
  | none => enMessages

/-- `useState(3)` of `LatestNewsTable` (line 536): the initial visible count. -/
def initialVisibleCount : Nat := 3

/-- `handleLoadMore` (lines 539–541): `setVisibleCount(prev => prev + 3)`. -/
def handleLoadMore (prev : Nat) : Nat := prev + 3

/-- The rows `LatestNewsTable` renders (line 553):
`items.slice(0, visibleCount)`. -/
def renderedRows {ι : Type} (items : List ι) (visibleCount : Nat) : List ι :=
  items.take visibleCount

/-- `isAllShown` (line 537): `visibleCount >= items.length`. -/
def isAllShown {ι : Type} (items : List ι) (visibleCount : Nat) : Bool :=
  decide (visibleCount ≥ items.length)

/-- The load-more control is rendered exactly when `!isAllShown`
(line 587). -/
def showLoadMore {ι : Type} (items : List ι) (visibleCount : Nat) : Bool :=
  !(isAllShown items visibleCount)

/-- C1: for every requested locale outside the supported set,
`LocaleLayout` produces the NotFound outcome, whatever the authentication
cookie holds — locale validation precedes every authentication-dependent
branch. -/
theorem C1_invalid_locale_notFound {α β : Type} (routing : Routing)
    (getMessages : String → Except JsError β) (children : α) (locale : String)
    (authCookie : Option Cookie) (h : locale ∉ routing.locales) :
    (LocaleLayout routing getMessages children locale authCookie).outcome =
      RenderOutcome.notFound := by
  simp [LocaleLayout, List.contains, List.elem_eq_mem, h]

/-- Witness for C1: the unsupported locale `xx` with the cookie set to
`"true"` still yields NotFound. -/
theorem C1_witness :
    "xx" ∉ toddRouting.locales ∧
      (LocaleLayout toddRouting (fun _ => (Except.ok "B" : Except JsError String))
          "kids" "xx" (some ⟨"true"⟩)).outcome = RenderOutcome.notFound :=
  ⟨by decide,
   C1_invalid_locale_notFound toddRouting (fun _ => Except.ok "B") "kids" "xx"
     (some ⟨"true"⟩) (by decide)⟩

/-- C2: for every supported locale, if the cookie value equals `"true"`,
`LocaleLayout` returns the children untouched and `getMessages` is never
invoked. -/
theorem C2_auth_passthrough {α β : Type} (routing : Routing)
    (getMessages : String → Except JsError β) (children : α) (locale : String)
    (authCookie : Option Cookie) (h1 : locale ∈ routing.locales)
    (h2 : authState authCookie = true) :
    (LocaleLayout routing getMessages children locale authCookie).outcome =
        RenderOutcome.passThrough children ∧
      (LocaleLayout routing getMessages children locale authCookie).loaderCalls = [] := by
  simp [LocaleLayout, List.contains, List.elem_eq_mem, h1, h2]

/-- Witness for C2: locale `es`, cookie `"true"`, a loader that would fail
if queried — the outcome is PassThrough and the loader is never queried. -/
theorem C2_witness :
    "es" ∈ toddRouting.locales ∧
      authState (some ⟨"true"⟩) = true ∧
      (LocaleLayout toddRouting
          (fun _ => (Except.error ⟨"Error", "boom", "trace"⟩ : Except JsError String))
          "kids" "es" (some ⟨"true"⟩)).outcome = RenderOutcome.passThrough "kids" ∧
      (LocaleLayout toddRouting
          (fun _ => (Except.error ⟨"Error", "boom", "trace"⟩ : Except JsError String))
          "kids" "es" (some ⟨"true"⟩)).loaderCalls = [] :=
  ⟨by decide, by decide,
   (C2_auth_passthrough toddRouting (fun _ => Except.error ⟨"Error", "boom", "trace"⟩)
       "kids" "es" (some ⟨"true"⟩) (by decide) (by decide)).1,
   (C2_auth_passthrough toddRouting (fun _ => Except.error ⟨"Error", "boom", "trace"⟩)
       "kids" "es" (some ⟨"true"⟩) (by decide) (by decide)).2⟩

/-- C3: for every supported locale with the authentication state false, a
successful bundle load yields the Shell outcome carrying exactly that
bundle, exactly the requested locale as the document language, and the
original children. -/
theorem C3_shell_on_success {α β : Type} (routing : Routing)
    (getMessages : String → Except JsError β) (children : α) (locale : String)
    (authCookie : Option Cookie) (B : β) (h1 : locale ∈ routing.locales)
    (h2 : authState authCookie = false) (h3 : getMessages locale = Except.ok B) :
    (LocaleLayout routing getMessages children locale authCookie).outcome =
      RenderOutcome.shell locale B children := by
  simp [LocaleLayout, List.contains, List.elem_eq_mem, h1, h2, h3]

/-- Witness for C3: locale `en`, cookie absent, loader returning the
bundle `enBundle` — the outcome is the Shell with that bundle and
locale. -/
theorem C3_witness :
    "en" ∈ toddRouting.locales ∧
      authState none = false ∧
      (fun (_ : String) => (Except.ok "enBundle" : Except JsError String)) "en" =
        Except.ok "enBundle" ∧
      (LocaleLayout toddRouting (fun _ => (Except.ok "enBundle" : Except JsError String))
          "kids" "en" none).outcome = RenderOutcome.shell "en" "enBundle" "kids" :=
  ⟨by decide, by decide, rfl,
   C3_shell_on_success toddRouting (fun _ => Except.ok "enBundle") "kids" "en" none
     "enBundle" (by decide) (by decide) rfl⟩

/-- C6: the authentication state is true exactly when the named cookie is
present with value exactly `"true"`; any other value or an absent cookie
gives false. -/
theorem C6_authState_iff (c : Option Cookie) :
    authState c = true ↔ c = some ⟨"true"⟩ := by
  cases c with
  | none => simp [authState]
  | some ck => cases ck with
    | mk v => simp [authState, Cookie.mk.injEq]

/-- Counterexample to C4 as stated: locale `en`, cookie absent, loader
throwing `boom` — the outcome is NotFound, but the catch block performs two
`console.error` invocations (lines 134 and 135–139), not exactly one. -/
theorem C4_counterexample :
    (LocaleLayout toddRouting
        (fun _ => (Except.error ⟨"Error", "boom", "trace"⟩ : Except JsError String))
        "kids" "en" none).log.length = 2 ∧
      ¬((LocaleLayout toddRouting
          (fun _ => (Except.error ⟨"Error", "boom", "trace"⟩ : Except JsError String))
          "kids" "en" none).log.length = 1) := by
  constructor <;> decide

/-- C4 amended: for every supported locale with the authentication state
false, a bundle load throwing `e` yields the NotFound outcome and exactly
two diagnostic log entries: the first carrying the error object, the
second carrying exactly the name, the message and the stack of `e`. -/
theorem C4_bundle_failure_notFound_logs {α β : Type} (routing : Routing)
    (getMessages : String → Except JsError β) (children : α) (locale : String)
    (authCookie : Option Cookie) (e : JsError) (h1 : locale ∈ routing.locales)
    (h2 : authState authCookie = false) (h3 : getMessages locale = Except.error e) :
    (LocaleLayout routing getMessages children locale authCookie).outcome =
        RenderOutcome.notFound ∧
      (LocaleLayout routing getMessages children locale authCookie).log =
        [LogEntry.errorObject "❌ [layout.tsx] Error in LocaleLayout:" e,
         LogEntry.errorDetails "❌ [layout.tsx] Error details:" e.name e.message e.stack] := by
  simp [LocaleLayout, List.contains, List.elem_eq_mem, h1, h2, h3]

/-- Witness for the amended C4: locale `es`, cookie absent, loader
throwing — NotFound plus the two log entries, the second holding the name,
message and stack of the error. -/
theorem C4_witness :
    "es" ∈ toddRouting.locales ∧
      authState none = false ∧
      (fun (_ : String) =>
          (Except.error ⟨"Error", "boom", "trace"⟩ : Except JsError String)) "es" =
        Except.error ⟨"Error", "boom", "trace"⟩ ∧
      (LocaleLayout toddRouting
          (fun _ => (Except.error ⟨"Error", "boom", "trace"⟩ : Except JsError String))
          "kids" "es" none).outcome = RenderOutcome.notFound ∧
      (LocaleLayout toddRouting
          (fun _ => (Except.error ⟨"Error", "boom", "trace"⟩ : Except JsError String))
          "kids" "es" none).log =
        [LogEntry.errorObject "❌ [layout.tsx] Error in LocaleLayout:"
           ⟨"Error", "boom", "trace"⟩,
         LogEntry.errorDetails "❌ [layout.tsx] Error details:" "Error" "boom" "trace"] :=
  ⟨by decide, by decide, rfl,
   (C4_bundle_failure_notFound_logs toddRouting
       (fun _ => Except.error ⟨"Error", "boom", "trace"⟩) "kids" "es" none
       ⟨"Error", "boom", "trace"⟩ (by decide) (by decide) rfl).1,
   (C4_bundle_failure_notFound_logs toddRouting
       (fun _ => Except.error ⟨"Error", "boom", "trace"⟩) "kids" "es" none
       ⟨"Error", "boom", "trace"⟩ (by decide) (by decide) rfl).2⟩

/-- C5: every invocation lands in one of exactly NotFound, PassThrough of
the children, or Shell of the locale, some bundle and the children; and an
invalid-locale invocation and a bundle-load-failure invocation produce
externally identical NotFound outcomes. -/
theorem C5_notFound_only_error_surface {α β : Type} (routing : Routing)
    (gm gm2 : String → Except JsError β) (children c2 : α)
    (l0 l1 l2 : String) (a0 a1 a2 : Option Cookie) (e : JsError)
    (h1 : l1 ∉ routing.locales) (h2 : l2 ∈ routing.locales)
    (h3 : authState a2 = false) (h4 : gm2 l2 = Except.error e) :
    ((LocaleLayout routing gm children l0 a0).outcome = RenderOutcome.notFound ∨
      (LocaleLayout routing gm children l0 a0).outcome =
        RenderOutcome.passThrough children ∨
      ∃ B, (LocaleLayout routing gm children l0 a0).outcome =
        RenderOutcome.shell l0 B children) ∧
      (LocaleLayout routing gm children l1 a1).outcome =
        (LocaleLayout routing gm2 c2 l2 a2).outcome ∧
      (LocaleLayout routing gm children l1 a1).outcome = RenderOutcome.notFound := by
  refine ⟨?_, ?_, ?_⟩
  · unfold LocaleLayout
    dsimp only
    split
    · exact Or.inl rfl
    · split
      · exact Or.inr (Or.inl rfl)
      · cases hgm : gm l0 with
        | ok B => exact Or.inr (Or.inr ⟨B, by simp [hgm]⟩)
        | error e0 => simp [hgm]
  · have hl1 : (LocaleLayout routing gm children l1 a1).outcome =
        RenderOutcome.notFound := by
      simp [LocaleLayout, List.contains, List.elem_eq_mem, h1]
    have hl2 : (LocaleLayout routing gm2 c2 l2 a2).outcome =
        RenderOutcome.notFound := by
      simp [LocaleLayout, List.contains, List.elem_eq_mem, h2, h3, h4]
    rw [hl1, hl2]
  · simp [LocaleLayout, List.contains, List.elem_eq_mem, h1]

/-- Witness for C5: a concrete run where `xx` is unsupported and the `en`
load fails — the trichotomy holds and the two NotFound outcomes
coincide. -/
theorem C5_witness :
    "xx" ∉ toddRouting.locales ∧
      "en" ∈ toddRouting.locales ∧
      authState none = false ∧
      (fun (_ : String) =>
          (Except.error ⟨"Error", "boom", "trace"⟩ : Except JsError String)) "en" =
        Except.error ⟨"Error", "boom", "trace"⟩ ∧
      (((LocaleLayout toddRouting (fun _ => (Except.ok "B" : Except JsError String))
            "kids" "en" none).outcome = RenderOutcome.notFound ∨
        (LocaleLayout toddRouting (fun _ => (Except.ok "B" : Except JsError String))
            "kids" "en" none).outcome = RenderOutcome.passThrough "kids" ∨
        ∃ B, (LocaleLayout toddRouting (fun _ => (Except.ok "B" : Except JsError String))
            "kids" "en" none).outcome = RenderOutcome.shell "en" B "kids") ∧
       (LocaleLayout toddRouting (fun _ => (Except.ok "B" : Except JsError String))
           "kids" "xx" (some ⟨"nope"⟩)).outcome =
         (LocaleLayout toddRouting
             (fun _ => (Except.error ⟨"Error", "boom", "trace"⟩ : Except JsError String))
             "kids2" "en" none).outcome ∧
       (LocaleLayout toddRouting (fun _ => (Except.ok "B" : Except JsError String))
           "kids" "xx" (some ⟨"nope"⟩)).outcome = RenderOutcome.notFound) :=
  ⟨by decide, by decide, by decide, rfl,
   C5_notFound_only_error_surface toddRouting (fun _ => Except.ok "B")
     (fun _ => Except.error ⟨"Error", "boom", "trace"⟩) "kids" "kids2" "en" "xx" "en"
     none (some ⟨"nope"⟩) none ⟨"Error", "boom", "trace"⟩ (by decide) (by decide)
     (by decide) rfl⟩

/-- Case analysis: every `LocaleLayout` invocation takes exactly one of the
four source paths — invalid locale, authenticated short-circuit, successful
load, failed load. -/
theorem LocaleLayout_cases {α β : Type} (routing : Routing)
    (gm : String → Except JsError β) (children : α) (locale : String)
    (authCookie : Option Cookie) :
    LocaleLayout routing gm children locale authCookie =
        { outcome := .notFound, log := [], loaderCalls := [] } ∨
      LocaleLayout routing gm children locale authCookie =
        { outcome := .passThrough children, log := [], loaderCalls := [] } ∨
      (∃ B, gm locale = Except.ok B ∧
        LocaleLayout routing gm children locale authCookie =
          { outcome := .shell locale B children, log := [], loaderCalls := [locale] }) ∨
      (∃ e, gm locale = Except.error e ∧
        LocaleLayout routing gm children locale authCookie =
          { outcome := .notFound
            log := [.errorObject "❌ [layout.tsx] Error in LocaleLayout:" e,
                    .errorDetails "❌ [layout.tsx] Error details:" e.name e.message e.stack]
            loaderCalls := [locale] }) := by
  unfold LocaleLayout
  dsimp only
  split
  · exact Or.inl rfl
  · split
    · exact Or.inr (Or.inl rfl)
    · cases hgm : gm locale with
      | ok B => exact Or.inr (Or.inr (Or.inl ⟨B, rfl, rfl⟩))
      | error e => exact Or.inr (Or.inr (Or.inr ⟨e, rfl, rfl⟩))

/-- C7: the layout is deterministic and stateless across requests — in a
batch, the result at position `i` is exactly the independent evaluation of
the request at position `i`, untouched by any other request, and equal
inputs give equal results. -/
theorem C7_stateless_deterministic {α β : Type} (routing : Routing)
    (gm : String → Except JsError β) (reqs : List (Request α)) (i : Nat)
    (r1 r2 : Request α) (h : r1 = r2) :
    (processRequests routing gm reqs)[i]? =
        (reqs[i]?).map
          (fun r => LocaleLayout routing gm r.children r.locale r.authCookie) ∧
      LocaleLayout routing gm r1.children r1.locale r1.authCookie =
        LocaleLayout routing gm r2.children r2.locale r2.authCookie := by
  subst h
  exact ⟨by simp [processRequests], rfl⟩

/-- Witness for C7: a two-request batch evaluated positionally, and two
invocations on the same request coinciding. -/
theorem C7_witness :
    ({ children := "kids", locale := "en", authCookie := none } : Request String) =
        { children := "kids", locale := "en", authCookie := none } ∧
      ((processRequests toddRouting
            (fun _ => (Except.ok "B" : Except JsError String))
            [{ children := "kids", locale := "en", authCookie := none },
             { children := "kids2", locale := "xx", authCookie := none }])[0]? =
          (([{ children := "kids", locale := "en", authCookie := none },
             { children := "kids2", locale := "xx", authCookie := none }] :
              List (Request String))[0]?).map
            (fun r => LocaleLayout toddRouting (fun _ => Except.ok "B")
              r.children r.locale r.authCookie) ∧
        LocaleLayout toddRouting (fun _ => (Except.ok "B" : Except JsError String))
            "kids" "en" none =
          LocaleLayout toddRouting (fun _ => (Except.ok "B" : Except JsError String))
            "kids" "en" none) :=
  ⟨rfl,
   C7_stateless_deterministic toddRouting (fun _ => Except.ok "B")
     [{ children := "kids", locale := "en", authCookie := none },
      { children := "kids2", locale := "xx", authCookie := none }] 0
     { children := "kids", locale := "en", authCookie := none }
     { children := "kids", locale := "en", authCookie := none } rfl⟩

/-- C8: in every execution the bundle loader is invoked at most once, the
outcome is exactly one of the three terminal states, and with a loader
that always fails the Shell state is never reached — a load failure is
immediately terminal. -/
theorem C8_no_retry_single_terminal {α β : Type} (routing : Routing)
    (gm : String → Except JsError β) (children : α) (locale : String)
    (authCookie : Option Cookie) (e : JsError) :
    (LocaleLayout routing gm children locale authCookie).loaderCalls.length ≤ 1 ∧
      ((LocaleLayout routing gm children locale authCookie).outcome.isNotFound.toNat +
        (LocaleLayout routing gm children locale authCookie).outcome.isPassThrough.toNat +
        (LocaleLayout routing gm children locale authCookie).outcome.isShell.toNat = 1) ∧
      (LocaleLayout routing (fun _ => (Except.error e : Except JsError β)) children
          locale authCookie).outcome.isShell = false := by
  refine ⟨?_, ?_, ?_⟩
  · rcases LocaleLayout_cases routing gm children locale authCookie with
      h | h | ⟨B, _, h⟩ | ⟨e0, _, h⟩ <;>
      simp [h]
  · rcases LocaleLayout_cases routing gm children locale authCookie with
      h | h | ⟨B, _, h⟩ | ⟨e0, _, h⟩ <;>
      simp [h, RenderOutcome.isNotFound, RenderOutcome.isPassThrough,
        RenderOutcome.isShell]
  · rcases LocaleLayout_cases routing (fun _ => (Except.error e : Except JsError β))
        children locale authCookie with h | h | ⟨B, hB, h⟩ | ⟨e0, _, h⟩
    · simp [h, RenderOutcome.isShell]
    · simp [h, RenderOutcome.isShell]
    · exact absurd hB (by simp)
    · simp [h, RenderOutcome.isShell]

/-- C9: the test harness silently falls back to the English bundle for any
locale outside `en`/`es`, both in `getMessagesForLocale` and in the
message selection of `AllTheProviders`, while the production gate yields
NotFound for such a locale. -/
theorem C9_harness_silent_fallback {β : Type} (en es : β) (locale : String)
    (gm : String → Except JsError β) (children : String)
    (authCookie : Option Cookie) (h1 : locale ≠ "en") (h2 : locale ≠ "es") :
    getMessagesForLocale en es locale = en ∧
      allTheProvidersMessages en es locale = en ∧
      (LocaleLayout toddRouting gm children locale authCookie).outcome =
        RenderOutcome.notFound := by
  have e1 : (locale == "en") = false := by
    simp only [beq_eq_false_iff_ne, ne_eq]
    exact h1
  have e2 : (locale == "es") = false := by
    simp only [beq_eq_false_iff_ne, ne_eq]
    exact h2
  refine ⟨?_, ?_, ?_⟩
  · simp [getMessagesForLocale, List.lookup, e1, e2]
  · simp [allTheProvidersMessages, List.lookup, e1, e2]
  · simp [LocaleLayout, toddRouting, List.contains, List.elem_eq_mem, h1, h2]

/-- Witness for C9: the locale `fr` receives the English bundle from both
harness helpers, while the gate answers NotFound. -/
theorem C9_witness :
    ("fr" : String) ≠ "en" ∧
      ("fr" : String) ≠ "es" ∧
      getMessagesForLocale "EN" "ES" "fr" = "EN" ∧
      allTheProvidersMessages "EN" "ES" "fr" = "EN" ∧
      (LocaleLayout toddRouting (fun _ => (Except.ok "EN" : Except JsError String))
          "kids" "fr" none).outcome = RenderOutcome.notFound :=
  ⟨by decide, by decide,
   (C9_harness_silent_fallback "EN" "ES" "fr" (fun _ => Except.ok "EN") "kids" none
       (by decide) (by decide)).1,
   (C9_harness_silent_fallback "EN" "ES" "fr" (fun _ => Except.ok "EN") "kids" none
       (by decide) (by decide)).2.1,
   (C9_harness_silent_fallback "EN" "ES" "fr" (fun _ => Except.ok "EN") "kids" none
       (by decide) (by decide)).2.2⟩

/-- C10: the table renders exactly `min visibleCount items.length` rows, the
visible count starts at 3 and grows by exactly 3 per activation (after `n`
activations it is `3 + 3 * n`), and the load-more control shows exactly
when `visibleCount < items.length`. -/
theorem C10_latest_news_visible_rows {ι : Type} (items : List ι) (v n : Nat) :
    (renderedRows items v).length = min v items.length ∧
      initialVisibleCount = 3 ∧
      handleLoadMore v = v + 3 ∧
      handleLoadMore^[n] initialVisibleCount = 3 + 3 * n ∧
      (showLoadMore items v = true ↔ v < items.length) := by
  refine ⟨?_, rfl, rfl, ?_, ?_⟩
  · simp [renderedRows]
  · induction n with
    | zero => rfl
    | succ k ih =>
        rw [Function.iterate_succ_apply', ih, handleLoadMore]
        ring
  · simp [showLoadMore, isAllShown]

end Nightcrawler
